import Mathlib

/-!
# Dashboard widget polling and reconciliation — verification development

Shallow embedding of the per-widget update logic of the dashboard's Svelte
components (`src/lib/components/*.svelte`): each widget holds mutable state
(`$state` variables), an async `update…` function that applies a fetch
outcome (success payload or failure message) to that state, and an
`onMount`/`onDestroy` pair that drives a `setInterval` schedule.

JS strings are modelled as `String`; `String.prototype.includes` (contiguous
substring test) and `String.prototype.toLowerCase` (ASCII lower-casing, all
marker strings are ASCII) are modelled at the character-list level.
-/

namespace Dashboard

/-- Helper `listStartsWith hay needle`: `needle` is a prefix of `hay`. -/
def listStartsWith (hay needle : List Char) : Bool :=
  match needle, hay with
  | [], _ => true
  | _ :: _, [] => false
  | n :: ns, h :: hs => n == h && listStartsWith hs ns

/-- Helper `listContains hay needle`: `needle` occurs as a contiguous sublist of
`hay` — the semantics of JS `hay.includes(needle)`. -/
def listContains (hay needle : List Char) : Bool :=
  match hay with
  | [] => needle.isEmpty
  | _ :: hs => listStartsWith hay needle || listContains hs needle

/-- JS `hay.includes(needle)` on the original (case-sensitive) message. -/
def includes (hay needle : String) : Bool :=
  listContains hay.toList needle.toList

/-- JS `err.toLowerCase().includes("loading")`, the StillLoading marker test
used by `updateTickets` (JiraTickets.svelte:61) and `updateIssues`
(SentryIssues.svelte:52). `toLowerCase` is applied at the char level
(`Char.toLower` agrees with JS on the ASCII letters used by the markers). -/
def hasLoadingMarker (err : String) : Bool :=
  listContains (err.toList.map Char.toLower) "loading".toList

/-- A fetch outcome: the adapter call (`invoke`) either resolves with a typed
payload or rejects with an error whose text is `String(err)`. -/
inductive Outcome (α : Type) where
  | success (data : α)
  | failure (msg : String)

/-! ## Jira Tickets widget (JiraTickets.svelte) -/

/-- Record shape of one Jira ticket (JiraTickets.svelte:7-13). -/
structure JiraTicket where
  key : String
  summary : String
  status : String
  assignee : String
  url : String
deriving DecidableEq, Repr

/-- The widget's `$state` variables (JiraTickets.svelte:15-17):
`tickets`, `error` (nullable string) and `isLoading`. -/
structure JiraState where
  tickets : List JiraTicket
  error : Option String
  isLoading : Bool
deriving DecidableEq, Repr

/-- Initial state: `tickets = []`, `error = null`, `isLoading = true`. -/
def jiraInit : JiraState := { tickets := [], error := none, isLoading := true }

/-- Function `updateTickets` (JiraTickets.svelte:52-71) applied to one fetch outcome.
On success: store the data, clear the error, leave loading (`keepLoading`
stays false so the `finally` block sets `isLoading = false`). On failure:
if the message lower-cased contains "loading", keep loading and clear the
error (tickets untouched); otherwise store the message as the error and
clear `tickets` to `[]`. -/
def updateTickets (s : JiraState) (o : Outcome (List JiraTicket)) : JiraState :=
  match o with
  | .success data => { tickets := data, error := none, isLoading := false }
  | .failure err =>
    if hasLoadingMarker err then
      { s with error := none, isLoading := true }
    else
      { tickets := [], error := some err, isLoading := false }

/-- The string "Jira not configured. Set JIRA_EMAIL and JIRA_API_TOKEN in .env". -/
def jiraNotConfiguredMsg : String :=
  "Jira not configured. Set JIRA_EMAIL and JIRA_API_TOKEN in .env"

/-- The string "Authentication failed. Check your email and API token in .env". -/
def jiraAuthFailedMsg : String :=
  "Authentication failed. Check your email and API token in .env"

/-- The string "Error loading tickets". -/
def jiraGenericMsg : String := "Error loading tickets"

/-- The error-message ternary chain rendered when `error` is truthy
(JiraTickets.svelte:100-104): `environment variable` / `JIRA_` markers give
the not-configured guidance, else `401` / `403` give the auth-failure
guidance, else the generic text. -/
def jiraErrorText (error : String) : String :=
  if includes error "environment variable" || includes error "JIRA_" then
    jiraNotConfiguredMsg
  else if includes error "401" || includes error "403" then
    jiraAuthFailedMsg
  else
    jiraGenericMsg

/-- The error taxonomy of spec §3/§7. -/
inductive ErrKind where
  | notConfigured
  | authFailure
  | transientNetwork
  | unsupportedPlatform
  | stillLoading
  | unknown
deriving DecidableEq, Repr

/-- The Jira widget's composite classification of a failure message, as the
code behaves end to end: `updateTickets` first tests the lower-cased message
for "loading" (JiraTickets.svelte:61) and keeps the loading presentation;
only otherwise does the template's ternary chain (JiraTickets.svelte:100-104)
run, testing `environment variable` / `JIRA_`, then `401` / `403`, else the
generic branch. No TransientNetwork or UnsupportedPlatform marker exists in
this widget. -/
def jiraClassify (err : String) : ErrKind :=
  if hasLoadingMarker err then .stillLoading
  else if includes err "environment variable" || includes err "JIRA_" then .notConfigured
  else if includes err "401" || includes err "403" then .authFailure
  else .unknown

/-- Presentation states of the Jira widget's template
(JiraTickets.svelte:96-108). -/
inductive JiraView where
  | loading
  | errorMsg (msg : String)
  | noTickets
  | ticketList (ts : List JiraTicket)
deriving DecidableEq, Repr

/-- JS truthiness of the nullable `error` string: `null` and `""` are falsy. -/
def truthyStr : Option String → Bool
  | none => false
  | some s => s ≠ ""

/-- The template's branch order (JiraTickets.svelte:96-108): `isLoading`,
then truthy `error`, then empty list, else the ticket list. -/
def jiraView (s : JiraState) : JiraView :=
  if s.isLoading then .loading
  else if truthyStr s.error then .errorMsg (jiraErrorText (s.error.getD ""))
  else if s.tickets = [] then .noTickets
  else .ticketList s.tickets

/-! ## Sentry Issues widget (SentryIssues.svelte) -/

/-- Record shape of one Sentry issue (SentryIssues.svelte:7-15). -/
structure SentryIssue where
  title : String
  last_seen : String
  first_seen : String
  age : String
  events : Nat
  users : Nat
  url : String
deriving DecidableEq, Repr

/-- The widget's `$state` variables (SentryIssues.svelte:17-19). -/
structure SentryState where
  issues : List SentryIssue
  error : Option String
  isLoading : Bool
deriving DecidableEq, Repr

/-- Initial state: `issues = []`, `error = null`, `isLoading = true`. -/
def sentryInit : SentryState := { issues := [], error := none, isLoading := true }

/-- Function `updateIssues` (SentryIssues.svelte:43-62): identical shape to
`updateTickets` — a failure whose lower-cased message contains "loading"
keeps the loading presentation, any other failure stores the message and
clears `issues`. -/
def updateIssues (s : SentryState) (o : Outcome (List SentryIssue)) : SentryState :=
  match o with
  | .success data => { issues := data, error := none, isLoading := false }
  | .failure err =>
    if hasLoadingMarker err then
      { s with error := none, isLoading := true }
    else
      { issues := [], error := some err, isLoading := false }

/-- The string "Sentry not configured. Set SENTRY_AUTH_TOKEN in .env". -/
def sentryNotConfiguredMsg : String := "Sentry not configured. Set SENTRY_AUTH_TOKEN in .env"

/-- The string "Error loading issues". -/
def sentryGenericMsg : String := "Error loading issues"

/-- The error-message ternary rendered when `error` is truthy
(SentryIssues.svelte:102-104): only the `SENTRY_AUTH_TOKEN` marker is
recognised, else the generic text. -/
def sentryErrorText (error : String) : String :=
  if includes error "SENTRY_AUTH_TOKEN" then sentryNotConfiguredMsg else sentryGenericMsg

/-- The Sentry widget's composite failure classification: the lower-cased
"loading" test in `updateIssues` (SentryIssues.svelte:52) runs first, then
the template's `SENTRY_AUTH_TOKEN` marker, else unknown. -/
def sentryClassify (err : String) : ErrKind :=
  if hasLoadingMarker err then .stillLoading
  else if includes err "SENTRY_AUTH_TOKEN" then .notConfigured
  else .unknown

/-! ## Docker Containers widget (DockerContainers.svelte) -/

/-- Record shape of one container (DockerContainers.svelte:6-13). -/
structure DockerContainer where
  id : String
  name : String
  image : String
  status : String
  ports : String
  uptime : String
deriving DecidableEq, Repr

/-- The widget's `$state` variables (DockerContainers.svelte:15-16):
no `isLoading` flag exists in this component. -/
structure DockerState where
  containers : List DockerContainer
  error : Option String
deriving DecidableEq, Repr

/-- Initial state: `containers = []`, `error = null`. -/
def dockerInit : DockerState := { containers := [], error := none }

/-- Function `updateContainers` (DockerContainers.svelte:19-29): success stores the
data and clears the error; every failure stores the message and clears
`containers` to `[]` — there is no loading-marker special case. -/
def updateContainers (_s : DockerState) (o : Outcome (List DockerContainer)) : DockerState :=
  match o with
  | .success data => { containers := data, error := none }
  | .failure err => { containers := [], error := some err }

/-- The string "Docker not installed or not running". -/
def dockerNotInstalledMsg : String := "Docker not installed or not running"

/-- The string "Error loading containers". -/
def dockerGenericMsg : String := "Error loading containers"

/-- The error-message ternary rendered when `error` is truthy
(DockerContainers.svelte:48-50): `command not found` / `Failed to execute`
markers give the not-installed text, else the generic text. -/
def dockerErrorText (error : String) : String :=
  if includes error "command not found" || includes error "Failed to execute" then
    dockerNotInstalledMsg
  else
    dockerGenericMsg

/-! ## Service Health widget (HealthUp.svelte) -/

/-- Record shape of one health check (HealthUp.svelte:7-15); numeric fields
are integer milliseconds / status codes, `checked_at_ms` an epoch-ms
timestamp. -/
structure ServiceHealth where
  name : String
  url : String
  is_up : Bool
  status_code : Option Int
  latency_ms : Option Int
  checked_at_ms : Nat
  error : Option String
deriving DecidableEq, Repr

/-- The widget's `$state` variables (HealthUp.svelte:17-19). -/
structure HealthState where
  services : List ServiceHealth
  isLoading : Bool
  error : Option String
deriving DecidableEq, Repr

/-- Initial state: `services = []`, `isLoading = true`, `error = null`. -/
def healthInit : HealthState := { services := [], isLoading := true, error := none }

/-- Function `updateHealth` (HealthUp.svelte:61-71): success stores the data and
clears the error; a failure stores the message but leaves `services`
untouched; the `finally` block always sets `isLoading = false`. -/
def updateHealth (s : HealthState) (o : Outcome (List ServiceHealth)) : HealthState :=
  match o with
  | .success data => { services := data, error := none, isLoading := false }
  | .failure err => { s with error := some err, isLoading := false }

/-- Result of `formatCheckedAt` / `lastCheckedLabel`: either the "n/a"
sentinel or a rendered timestamp. The code formats the timestamp with
`toLocaleTimeString` (locale- and timezone-dependent text); the model keeps
the millisecond value being formatted. -/
inductive CheckedLabel where
  | na
  | timeOf (ms : Nat)
deriving DecidableEq, Repr

/-- Function `formatCheckedAt` (HealthUp.svelte:35-45): a falsy `checkedAtMs`
(the number 0) yields "n/a", otherwise the formatted time of that value. -/
def formatCheckedAt (checkedAtMs : Nat) : CheckedLabel :=
  if checkedAtMs = 0 then .na else .timeOf checkedAtMs

/-- Function `lastCheckedLabel` (HealthUp.svelte:55-59): for a non-empty service list,
`formatCheckedAt(Math.max(...services.map(s => s.checked_at_ms)))`; for an
empty list, "n/a". `Math.max` over a non-empty list of naturals equals the
left fold of `max` from 0. -/
def lastCheckedLabel (services : List ServiceHealth) : CheckedLabel :=
  if services.length > 0 then
    formatCheckedAt ((services.map (fun s => s.checked_at_ms)).foldl max 0)
  else
    .na

/-! ## CPU / RAM usage widgets (CpuUsage.svelte, RamUsage.svelte)

Numeric payload fields are JS numbers used only for display; the update
logic never computes with them, so they are modelled as rationals. -/

/-- CpuUsage.svelte:6-9. -/
structure CpuCore where
  core_id : Nat
  usage : Rat
deriving DecidableEq, Repr

/-- CpuUsage.svelte:11-14. -/
structure CpuProcessInfo where
  name : String
  cpu_usage : Rat
deriving DecidableEq, Repr

/-- CpuUsage.svelte:16-20. -/
structure CpuInfo where
  overall_usage : Rat
  cores : List CpuCore
  top_processes : List CpuProcessInfo
deriving DecidableEq, Repr

/-- The widget's `$state` variables (CpuUsage.svelte:22-24). -/
structure CpuState where
  cpuUsage : CpuInfo
  isLoading : Bool
  loadError : Option String
deriving DecidableEq, Repr

/-- Initial state (CpuUsage.svelte:22-24): a zeroed payload, loading. -/
def cpuInit : CpuState :=
  { cpuUsage := { overall_usage := 0, cores := [], top_processes := [] },
    isLoading := true, loadError := none }

/-- Function `updateCpuUsage` (CpuUsage.svelte:27-38): success stores the data and
clears the error; a failure stores the message but leaves `cpuUsage`
untouched; the `finally` block always sets `isLoading = false`. -/
def updateCpuUsage (s : CpuState) (o : Outcome CpuInfo) : CpuState :=
  match o with
  | .success data => { cpuUsage := data, loadError := none, isLoading := false }
  | .failure err => { s with loadError := some err, isLoading := false }

/-- RamUsage.svelte — interface `ProcessInfo`: `memory` in bytes. -/
structure ProcessInfo where
  name : String
  memory : Nat
  percentage : Rat
deriving DecidableEq, Repr

/-- RamUsage.svelte — interface `RamInfo`: `used`/`total` in bytes. -/
structure RamInfo where
  used : Nat
  total : Nat
  percentage : Rat
  top_processes : List ProcessInfo
deriving DecidableEq, Repr

/-- The RAM widget's `$state` variables (RamUsage.svelte). -/
structure RamState where
  ramUsage : RamInfo
  isLoading : Bool
  loadError : Option String
deriving DecidableEq, Repr

/-- Initial state (RamUsage.svelte): a zeroed payload, loading. -/
def ramInit : RamState :=
  { ramUsage := { used := 0, total := 0, percentage := 0, top_processes := [] },
    isLoading := true, loadError := none }

/-- Function `updateRamUsage` (RamUsage.svelte): same shape as
`updateCpuUsage` — success stores the data and clears the error; a failure
stores the message but leaves `ramUsage` untouched; the `finally` block
always sets `isLoading = false`. -/
def updateRamUsage (s : RamState) (o : Outcome RamInfo) : RamState :=
  match o with
  | .success data => { ramUsage := data, loadError := none, isLoading := false }
  | .failure err => { s with loadError := some err, isLoading := false }

/-! ## Spotify widget (the unnamed Spotify component) -/

/-- Record shape of the current track (interface `SpotifyTrack`). -/
structure SpotifyTrack where
  track_name : String
  artist : String
  album : String
  artwork_url : String
  is_playing : Bool
deriving DecidableEq, Repr

/-- The Spotify widget's `$state` variables: a nullable `track` and a
nullable `error`. -/
structure SpotifyState where
  track : Option SpotifyTrack
  error : Option String
deriving DecidableEq, Repr

/-- Initial state: `track = null`, `error = null`. -/
def spotifyInit : SpotifyState := { track := none, error := none }

/-- Function `updateTrack` (Spotify component): success stores the track and
clears the error; every failure stores the message and sets `track = null` —
the previously fetched track is discarded. -/
def updateTrack (_s : SpotifyState) (o : Outcome SpotifyTrack) : SpotifyState :=
  match o with
  | .success data => { track := some data, error := none }
  | .failure err => { track := none, error := some err }

/-! ## Polling schedule (onMount / setInterval / onDestroy)

Every component's `onMount` calls its update function once immediately and
then `setInterval(update, intervalMs)`. `setInterval` fires the callback at
every tick regardless of whether the previous async call has resolved — the
host timer does not await the returned promise — so invocation `n` of the
adapter starts at time `n * intervalMs` (invocation 0 is the immediate
`onMount` call) and resolves `dur n` later, where `dur` is the duration of
that adapter call. -/

/-- Start time of the `n`-th adapter invocation under the `onMount`
schedule: immediate first call, then one per interval tick. -/
def callStart (intervalMs : Nat) (n : Nat) : Nat := intervalMs * n

/-- Resolution time of the `n`-th adapter invocation when that call takes
`dur n` milliseconds. -/
def callFinish (intervalMs : Nat) (dur : Nat → Nat) (n : Nat) : Nat :=
  callStart intervalMs n + dur n

/-- CpuUsage.svelte:43 — `setInterval(updateCpuUsage, 2000)`. -/
def cpuIntervalMs : Nat := 2000

/-- RamUsage.svelte — `setInterval(updateRamUsage, 2000)`. -/
def ramIntervalMs : Nat := 2000

/-- HealthUp.svelte:83 — `setInterval(updateHealth, 3000)`. -/
def healthIntervalMs : Nat := 3000

/-- SentryIssues.svelte:78 — `setInterval(updateIssues, 3000)`. -/
def sentryIntervalMs : Nat := 3000

/-- Spotify component — `setInterval(updateTrack, 3000)`. -/
def spotifyIntervalMs : Nat := 3000

/-- DockerContainers.svelte:34 — `setInterval(updateContainers, 5000)`. -/
def dockerIntervalMs : Nat := 5000

/-- JiraTickets.svelte:84 — `setInterval(updateTickets, 30000)`. -/
def jiraIntervalMs : Nat := 30000

/-- The timer resource owned by one widget: whether the interval is live,
and how many adapter invocations the timer has fired. -/
structure Poller where
  active : Bool
  invocations : Nat
deriving DecidableEq, Repr

/-- One interval tick: a live interval invokes the adapter once; a cleared
interval never fires again (host timer semantics of `clearInterval`). -/
def pollerTick (p : Poller) : Poller :=
  if p.active then { p with invocations := p.invocations + 1 } else p

/-- Effect of `onDestroy` (e.g. CpuUsage.svelte:46-50, JiraTickets.svelte:87-91):
`if (interval) clearInterval(interval)`. Clearing an interval id that is
already cleared is a no-op, so the effect is to make the timer inert. -/
def pollerStop (p : Poller) : Poller := { p with active := false }

/-! ## Component lifecycle and in-flight results (JiraTickets.svelte)

`onDestroy` only clears the interval; `updateTickets` (lines 52-71) contains
no check of any destroyed/stopped flag, so when an in-flight `invoke`
promise settles after destruction, its continuation applies the very same
state transition it always does. -/

/-- The Jira component's lifecycle: its `$state` plus the timer status. -/
structure JiraComponent where
  st : JiraState
  timerActive : Bool
deriving DecidableEq, Repr

/-- Effect of `onDestroy` (JiraTickets.svelte:87-91) clears the interval; the `$state`
variables are untouched. -/
def jiraOnDestroy (c : JiraComponent) : JiraComponent := { c with timerActive := false }

/-- Settling of an in-flight `updateTickets` call: the continuation after
`await invoke(...)` runs unconditionally — `updateTickets` never consults
the timer status. -/
def jiraResolveInFlight (c : JiraComponent) (o : Outcome (List JiraTicket)) : JiraComponent :=
  { c with st := updateTickets c.st o }

/-- Sample service row: never checked (`checked_at_ms = 0`). -/
def svcNever : ServiceHealth :=
  { name := "api", url := "https://api.example", is_up := false,
    status_code := none, latency_ms := none, checked_at_ms := 0, error := none }

/-- Sample service row checked at t = 1000 ms. -/
def svcApi : ServiceHealth :=
  { name := "api", url := "https://api.example", is_up := true,
    status_code := some 200, latency_ms := some 12, checked_at_ms := 1000,
    error := none }

/-- Sample service row checked at t = 2000 ms. -/
def svcWeb : ServiceHealth :=
  { name := "web", url := "https://web.example", is_up := true,
    status_code := some 200, latency_ms := some 34, checked_at_ms := 2000,
    error := none }

/-! ## Helper lemmas -/

/-- The initial accumulator is below a left `max`-fold. -/
theorem le_foldl_max_self (l : List Nat) (a : Nat) : a ≤ l.foldl max a := by
  induction l generalizing a with
  | nil => exact Nat.le_refl a
  | cons x xs ih => exact Nat.le_trans (Nat.le_max_left a x) (ih (max a x))

/-- Every member of the list is below a left `max`-fold over it. -/
theorem le_foldl_max_of_mem (l : List Nat) (a x : Nat) (hx : x ∈ l) :
    x ≤ l.foldl max a := by
  induction l generalizing a with
  | nil => cases hx
  | cons y ys ih =>
    rcases List.mem_cons.mp hx with h | h
    · subst h
      exact Nat.le_trans (Nat.le_max_right a x) (le_foldl_max_self ys (max a x))
    · exact ih (max a y) h

/-- A left `max`-fold is the accumulator or one of the list's members. -/
theorem foldl_max_mem (l : List Nat) (a : Nat) :
    l.foldl max a = a ∨ l.foldl max a ∈ l := by
  induction l generalizing a with
  | nil => exact Or.inl rfl
  | cons y ys ih =>
    rcases ih (max a y) with h | h
    · rcases Nat.le_total a y with hay | hya
      · right
        rw [List.foldl_cons, h, Nat.max_eq_right hay]
        exact List.mem_cons_self y ys
      · left
        rw [List.foldl_cons, h, Nat.max_eq_left hya]
    · right
      exact List.mem_cons_of_mem y h

/-- A cleared interval stays cleared and never fires. -/
theorem pollerTick_inactive (p : Poller) (h : p.active = false) : pollerTick p = p := by
  simp [pollerTick, h]

/-- Iterating ticks on a stopped poller changes nothing. -/
theorem pollerStop_iterate (n : Nat) (p : Poller) :
    pollerTick^[n] (pollerStop p) = pollerStop p := by
  induction n with
  | zero => rfl
  | succ k ih =>
    rw [Function.iterate_succ_apply, pollerTick_inactive (pollerStop p) rfl, ih]

/-! ## Claims -/

/-- C1 (counterexample): in the Jira widget, a single failed fetch after a
successful one does discard the previously fetched payload — `updateTickets`
sets `tickets = []` on any non-StillLoading failure, so the post-failure
state no longer holds the ticket fetched before. -/
theorem c1_counterexample :
    (updateTickets jiraInit
        (Outcome.success [{ key := "DT-1", summary := "fix", status := "Open",
                            assignee := "a", url := "u" }])).tickets =
      [{ key := "DT-1", summary := "fix", status := "Open",
         assignee := "a", url := "u" }] ∧
    (updateTickets
        (updateTickets jiraInit
          (Outcome.success [{ key := "DT-1", summary := "fix", status := "Open",
                              assignee := "a", url := "u" }]))
        (Outcome.failure "network error")).tickets = [] := by
  constructor
  · rfl
  · decide

/-- C1 (amended): failures retain the last successful payload only in the
HealthUp, CPU and RAM widgets (any sequence of failures leaves `services` /
`cpuUsage` / `ramUsage` untouched); in the Jira and Sentry widgets a
non-StillLoading failure clears the data to `[]` (a StillLoading failure
leaves it untouched), in the Docker widget every failure clears `containers`
to `[]`, and in the Spotify widget every failure clears `track` to `null`. -/
theorem c1_amended_holds :
    (∀ (s : HealthState) (es : List String),
      (es.foldl (fun st e => updateHealth st (Outcome.failure e)) s).services
        = s.services) ∧
    (∀ (s : CpuState) (es : List String),
      (es.foldl (fun st e => updateCpuUsage st (Outcome.failure e)) s).cpuUsage
        = s.cpuUsage) ∧
    (∀ (s : RamState) (es : List String),
      (es.foldl (fun st e => updateRamUsage st (Outcome.failure e)) s).ramUsage
        = s.ramUsage) ∧
    (∀ (s : JiraState) (e : String), hasLoadingMarker e = false →
      (updateTickets s (Outcome.failure e)).tickets = []) ∧
    (∀ (s : JiraState) (e : String), hasLoadingMarker e = true →
      (updateTickets s (Outcome.failure e)).tickets = s.tickets) ∧
    (∀ (s : SentryState) (e : String), hasLoadingMarker e = false →
      (updateIssues s (Outcome.failure e)).issues = []) ∧
    (∀ (s : SentryState) (e : String), hasLoadingMarker e = true →
      (updateIssues s (Outcome.failure e)).issues = s.issues) ∧
    (∀ (s : DockerState) (e : String),
      (updateContainers s (Outcome.failure e)).containers = []) ∧
    (∀ (s : SpotifyState) (e : String),
      (updateTrack s (Outcome.failure e)).track = none) := by
  refine ⟨?_, ?_, ?_, ?_, ?_, ?_, ?_, ?_, ?_⟩
  · intro s es
    induction es generalizing s with
    | nil => rfl
    | cons e es ih => rw [List.foldl_cons]; exact ih (updateHealth s (Outcome.failure e))
  · intro s es
    induction es generalizing s with
    | nil => rfl
    | cons e es ih => rw [List.foldl_cons]; exact ih (updateCpuUsage s (Outcome.failure e))
  · intro s es
    induction es generalizing s with
    | nil => rfl
    | cons e es ih => rw [List.foldl_cons]; exact ih (updateRamUsage s (Outcome.failure e))
  · intro s e h
    simp [updateTickets, h]
  · intro s e h
    simp [updateTickets, h]
  · intro s e h
    simp [updateIssues, h]
  · intro s e h
    simp [updateIssues, h]
  · intro s e
    rfl
  · intro s e
    rfl

/-- C1 (witness for the amended theorem at concrete inputs). -/
theorem c1_amended_holds_witness :
    (updateTickets jiraInit (Outcome.failure "network error")).tickets = [] ∧
    (updateTickets jiraInit (Outcome.failure "still loading")).tickets
      = jiraInit.tickets ∧
    (updateIssues sentryInit (Outcome.failure "network error")).issues = [] ∧
    (updateIssues sentryInit (Outcome.failure "still loading")).issues
      = sentryInit.issues :=
  ⟨c1_amended_holds.2.2.2.1 jiraInit "network error" (by decide),
   c1_amended_holds.2.2.2.2.1 jiraInit "still loading" (by decide),
   c1_amended_holds.2.2.2.2.2.1 sentryInit "network error" (by decide),
   c1_amended_holds.2.2.2.2.2.2.1 sentryInit "still loading" (by decide)⟩

/-- C2 (counterexample): the Jira widget does return to the Loading
presentation after data has been fetched: after one success the view shows
the ticket list, but a subsequent failure whose message contains "loading"
sets `isLoading = true` again, so the view is Loading once more. -/
theorem c2_counterexample :
    jiraView (updateTickets jiraInit
        (Outcome.success [{ key := "DT-1", summary := "fix", status := "Open",
                            assignee := "a", url := "u" }])) =
      JiraView.ticketList [{ key := "DT-1", summary := "fix", status := "Open",
                             assignee := "a", url := "u" }] ∧
    jiraView (updateTickets
        (updateTickets jiraInit
          (Outcome.success [{ key := "DT-1", summary := "fix", status := "Open",
                              assignee := "a", url := "u" }]))
        (Outcome.failure "Jira data is still loading")) = JiraView.loading := by
  constructor
  · rfl
  · decide

/-- C2 (amended): after any completed fetch the CPU widget is never in
Loading (`isLoading` is false after every outcome); in the Jira and Sentry
widgets a success always clears `isLoading` and a failure sets `isLoading`
exactly when its lower-cased message contains "loading" — so the widget
returns to Loading precisely on StillLoading-classified failures, and on no
other outcome. -/
theorem c2_amended_holds :
    (∀ (s : CpuState) (o : Outcome CpuInfo), (updateCpuUsage s o).isLoading = false) ∧
    (∀ (s : JiraState) (d : List JiraTicket),
      (updateTickets s (Outcome.success d)).isLoading = false) ∧
    (∀ (s : JiraState) (e : String),
      (updateTickets s (Outcome.failure e)).isLoading = hasLoadingMarker e) ∧
    (∀ (s : SentryState) (d : List SentryIssue),
      (updateIssues s (Outcome.success d)).isLoading = false) ∧
    (∀ (s : SentryState) (e : String),
      (updateIssues s (Outcome.failure e)).isLoading = hasLoadingMarker e) := by
  refine ⟨?_, ?_, ?_, ?_, ?_⟩
  · intro s o
    cases o with
    | success d => rfl
    | failure e => rfl
  · intro s d
    rfl
  · intro s e
    cases h : hasLoadingMarker e with
    | true => simp [updateTickets, h]
    | false => simp [updateTickets, h]
  · intro s d
    rfl
  · intro s e
    cases h : hasLoadingMarker e with
    | true => simp [updateIssues, h]
    | false => simp [updateIssues, h]

/-- C3 (counterexample): the message "JIRA_API_TOKEN still loading" contains
both the NotConfigured marker "JIRA_" and the StillLoading marker "loading",
yet the code classifies it StillLoading, not NotConfigured — the "loading"
test in `updateTickets` runs before the template's marker chain, so
StillLoading outranks NotConfigured, contrary to the claimed precedence. -/
theorem c3_counterexample :
    includes "JIRA_API_TOKEN still loading" "JIRA_" = true ∧
    jiraClassify "JIRA_API_TOKEN still loading" = ErrKind.stillLoading ∧
    ErrKind.stillLoading ≠ ErrKind.notConfigured := by
  refine ⟨by decide, by decide, by decide⟩

/-- C3 (amended): the classification precedence actually implemented is
StillLoading > NotConfigured > AuthFailure > Unknown for the Jira widget and
StillLoading > NotConfigured > Unknown for the Sentry widget (there are no
UnsupportedPlatform or TransientNetwork markers in either): a "loading"
marker always wins; absent it, the NotConfigured markers win; absent those,
a 401/403 marker yields AuthFailure in the Jira widget. -/
theorem c3_amended_holds :
    (∀ e : String, hasLoadingMarker e = true → jiraClassify e = ErrKind.stillLoading) ∧
    (∀ e : String, hasLoadingMarker e = false →
      (includes e "environment variable" || includes e "JIRA_") = true →
      jiraClassify e = ErrKind.notConfigured) ∧
    (∀ e : String, hasLoadingMarker e = false →
      (includes e "environment variable" || includes e "JIRA_") = false →
      (includes e "401" || includes e "403") = true →
      jiraClassify e = ErrKind.authFailure) ∧
    (∀ e : String, hasLoadingMarker e = true → sentryClassify e = ErrKind.stillLoading) ∧
    (∀ e : String, hasLoadingMarker e = false → includes e "SENTRY_AUTH_TOKEN" = true →
      sentryClassify e = ErrKind.notConfigured) := by
  refine ⟨?_, ?_, ?_, ?_, ?_⟩
  · intro e h
    simp [jiraClassify, h]
  · intro e h hm
    simp [jiraClassify, h, hm]
  · intro e h hm ha
    simp [jiraClassify, h, hm, ha]
  · intro e h
    simp [sentryClassify, h]
  · intro e h hm
    simp [sentryClassify, h, hm]

/-- C3 (witness for the amended theorem at concrete messages). -/
theorem c3_amended_holds_witness :
    jiraClassify "JIRA_API_TOKEN still loading" = ErrKind.stillLoading ∧
    jiraClassify "JIRA_API_TOKEN environment variable not set" = ErrKind.notConfigured ∧
    jiraClassify "HTTP 401 Unauthorized: connection refused" = ErrKind.authFailure :=
  ⟨c3_amended_holds.1 "JIRA_API_TOKEN still loading" (by decide),
   c3_amended_holds.2.1 "JIRA_API_TOKEN environment variable not set"
     (by decide) (by decide),
   c3_amended_holds.2.2.1 "HTTP 401 Unauthorized: connection refused"
     (by decide) (by decide) (by decide)⟩

/-- C4: error handling is total on failure-message strings. A message that
matches none of the known markers classifies Unknown and the rendered text
is the generic "error loading" message — "Error loading tickets" in the Jira
widget, "Error loading containers" in the Docker widget, "Error loading
issues" in the Sentry widget. (Totality itself is structural: the ternary
chains and `updateTickets`-style handlers are complete case analyses, so in
this embedding they are total functions that cannot throw.) -/
theorem c4_total_unknown :
    ∀ e : String,
      includes e "environment variable" = false →
      includes e "JIRA_" = false →
      includes e "401" = false →
      includes e "403" = false →
      jiraErrorText e = jiraGenericMsg ∧
      (hasLoadingMarker e = false → jiraClassify e = ErrKind.unknown) ∧
      (includes e "command not found" = false → includes e "Failed to execute" = false →
        dockerErrorText e = dockerGenericMsg) ∧
      (includes e "SENTRY_AUTH_TOKEN" = false →
        sentryErrorText e = sentryGenericMsg ∧
        (hasLoadingMarker e = false → sentryClassify e = ErrKind.unknown)) := by
  intro e h1 h2 h3 h4
  refine ⟨?_, ?_, ?_, ?_⟩
  · simp [jiraErrorText, h1, h2, h3, h4]
  · intro hl
    simp [jiraClassify, h1, h2, h3, h4, hl]
  · intro hc hf
    simp [dockerErrorText, hc, hf]
  · intro hs
    constructor
    · simp [sentryErrorText, hs]
    · intro hl
      simp [sentryClassify, hs, hl]

/-- C4 (witness at the concrete unmatched message "boom"). -/
theorem c4_total_unknown_witness :
    jiraErrorText "boom" = jiraGenericMsg ∧
    jiraClassify "boom" = ErrKind.unknown ∧
    dockerErrorText "boom" = dockerGenericMsg ∧
    sentryErrorText "boom" = sentryGenericMsg ∧
    sentryClassify "boom" = ErrKind.unknown :=
  ⟨(c4_total_unknown "boom" (by decide) (by decide) (by decide) (by decide)).1,
   (c4_total_unknown "boom" (by decide) (by decide) (by decide) (by decide)).2.1
     (by decide),
   (c4_total_unknown "boom" (by decide) (by decide) (by decide) (by decide)).2.2.1
     (by decide) (by decide),
   ((c4_total_unknown "boom" (by decide) (by decide) (by decide) (by decide)).2.2.2
     (by decide)).1,
   ((c4_total_unknown "boom" (by decide) (by decide) (by decide) (by decide)).2.2.2
     (by decide)).2 (by decide)⟩

/-- C5: the "last checked" aggregate of the HealthUp widget returns the
"n/a" sentinel for an empty service list and for a list in which no check
has ever completed (all `checked_at_ms` are the falsy 0) — never a rendered
0-timestamp; for a list with at least one completed check it renders exactly
the maximum of the per-service `checked_at_ms` values. -/
theorem c5_latest_check_time :
    lastCheckedLabel [] = CheckedLabel.na ∧
    (∀ ss : List ServiceHealth, (∀ s ∈ ss, s.checked_at_ms = 0) →
      lastCheckedLabel ss = CheckedLabel.na) ∧
    (∀ ss : List ServiceHealth, (∃ s ∈ ss, 0 < s.checked_at_ms) →
      ∃ m : Nat, lastCheckedLabel ss = CheckedLabel.timeOf m ∧
        (∃ s ∈ ss, s.checked_at_ms = m) ∧ (∀ s ∈ ss, s.checked_at_ms ≤ m)) := by
  refine ⟨rfl, ?_, ?_⟩
  · intro ss hz
    cases ss with
    | nil => rfl
    | cons s0 rest =>
      have hfold : ((s0 :: rest).map (fun s => s.checked_at_ms)).foldl max 0 = 0 := by
        rcases foldl_max_mem ((s0 :: rest).map (fun s => s.checked_at_ms)) 0 with h | h
        · exact h
        · rcases List.mem_map.mp h with ⟨s, hs, hval⟩
          rw [← hval]
          exact hz s hs
      have hlen : (s0 :: rest).length > 0 := by simp
      show (if (s0 :: rest).length > 0 then
              formatCheckedAt (((s0 :: rest).map (fun s => s.checked_at_ms)).foldl max 0)
            else CheckedLabel.na) = CheckedLabel.na
      rw [if_pos hlen, hfold]
      rfl
  · intro ss hpos
    rcases hpos with ⟨s0, hs0, hs0pos⟩
    have hne : ss ≠ [] := by
      intro h
      rw [h] at hs0
      cases hs0
    have hle : s0.checked_at_ms ≤ (ss.map (fun s => s.checked_at_ms)).foldl max 0 :=
      le_foldl_max_of_mem _ 0 _ (List.mem_map_of_mem (fun s => s.checked_at_ms) hs0)
    refine ⟨(ss.map (fun s => s.checked_at_ms)).foldl max 0, ?_, ?_, ?_⟩
    · have hlen : ss.length > 0 := List.length_pos.mpr hne
      have hmpos : ¬ ((ss.map (fun s => s.checked_at_ms)).foldl max 0 = 0) := by
        intro h0
        rw [h0] at hle
        exact Nat.not_lt.mpr hle hs0pos
      show (if ss.length > 0 then
              formatCheckedAt ((ss.map (fun s => s.checked_at_ms)).foldl max 0)
            else CheckedLabel.na) =
          CheckedLabel.timeOf ((ss.map (fun s => s.checked_at_ms)).foldl max 0)
      rw [if_pos hlen]
      show (if (ss.map (fun s => s.checked_at_ms)).foldl max 0 = 0 then CheckedLabel.na
            else CheckedLabel.timeOf ((ss.map (fun s => s.checked_at_ms)).foldl max 0)) = _
      rw [if_neg hmpos]
    · rcases foldl_max_mem (ss.map (fun s => s.checked_at_ms)) 0 with h | h
      · rw [h] at hle
        exact absurd hs0pos (Nat.not_lt.mpr hle)
      · rcases List.mem_map.mp h with ⟨s, hs, hval⟩
        exact ⟨s, hs, hval⟩
    · intro s hs
      exact le_foldl_max_of_mem _ 0 _ (List.mem_map_of_mem (fun s => s.checked_at_ms) hs)

/-- C5 (witness at concrete service lists: one never-checked service, and a
pair of checked services whose newest check is at t = 2000 ms). -/
theorem c5_latest_check_time_witness :
    lastCheckedLabel [svcNever] = CheckedLabel.na ∧
    ∃ m : Nat, lastCheckedLabel [svcApi, svcWeb] = CheckedLabel.timeOf m ∧
      (∃ s ∈ [svcApi, svcWeb], s.checked_at_ms = m) ∧
      (∀ s ∈ [svcApi, svcWeb], s.checked_at_ms ≤ m) :=
  ⟨c5_latest_check_time.2.1 [svcNever] (by decide),
   c5_latest_check_time.2.2 [svcApi, svcWeb] ⟨svcWeb, by decide, by decide⟩⟩

/-- C6 (counterexample): under the CPU widget's schedule
(`setInterval(updateCpuUsage, 2000)`), if the first adapter call takes
3000 ms, invocation 1 starts at t = 2000 while invocation 0 is still
outstanding until t = 3000 — the next call is not deferred, the calls
overlap. -/
theorem c6_counterexample :
    callStart cpuIntervalMs 1 < callFinish cpuIntervalMs (fun _ => 3000) 0 := by
  decide

/-- C6 (amended): `setInterval` fires every tick regardless of outstanding
calls, so adjacent adapter invocations overlap exactly when the earlier
call's duration exceeds the interval — the schedule never defers a tick. -/
theorem c6_amended_holds :
    ∀ (intervalMs : Nat) (dur : Nat → Nat) (n : Nat),
      callStart intervalMs (n + 1) < callFinish intervalMs dur n ↔
        intervalMs < dur n := by
  intro intervalMs dur n
  unfold callStart callFinish
  rw [Nat.mul_succ]
  exact Nat.add_lt_add_iff_left

/-- C7 (counterexample): after `onDestroy`, the arrival of an in-flight
fetch's result is not a no-op — `updateTickets` has no stopped-check, so a
success that settles after destruction overwrites the stored tickets. -/
theorem c7_counterexample :
    (jiraResolveInFlight
        (jiraOnDestroy
          { st := { tickets := [{ key := "DT-1", summary := "fix", status := "Open",
                                  assignee := "a", url := "u" }],
                    error := none, isLoading := false },
            timerActive := true })
        (Outcome.success [{ key := "DT-2", summary := "new", status := "Open",
                            assignee := "b", url := "v" }])).st ≠
      (jiraOnDestroy
        { st := { tickets := [{ key := "DT-1", summary := "fix", status := "Open",
                                assignee := "a", url := "u" }],
                  error := none, isLoading := false },
          timerActive := true }).st := by
  decide

/-- C7 (amended): `onDestroy` does cancel the pending timer — a cleared
interval fires no further invocations — but an in-flight fetch's result is
applied to the widget state exactly as if the component were still alive;
nothing in `updateTickets` detects "stopped" and discards it. -/
theorem c7_amended_holds :
    ∀ (c : JiraComponent) (o : Outcome (List JiraTicket)) (n : Nat) (p : Poller),
      (jiraOnDestroy c).timerActive = false ∧
      (pollerTick^[n] (pollerStop p)).invocations = p.invocations ∧
      (jiraResolveInFlight (jiraOnDestroy c) o).st = updateTickets c.st o := by
  intro c o n p
  refine ⟨rfl, ?_, rfl⟩
  rw [pollerStop_iterate n p]
  rfl

/-- C8: `onDestroy`'s stop is idempotent — stopping a stopped poller is the
same state, no exception is possible (the model is a total function, and
`clearInterval` on a cleared id is a no-op) — and once stopped, any number
of subsequent timer ticks fires no further adapter invocation. -/
theorem c8_stop_idempotent :
    ∀ p : Poller, pollerStop (pollerStop p) = pollerStop p ∧
      ∀ n : Nat,
        (pollerTick^[n] (pollerStop p)).invocations = (pollerStop p).invocations := by
  intro p
  constructor
  · rfl
  · intro n
    rw [pollerStop_iterate n p]

/-- C9 (counterexample): the Docker containers widget polls every 5000 ms,
not the 3000 ms the claim assigns to service/API widgets
(DockerContainers.svelte:34). -/
theorem c9_counterexample :
    dockerIntervalMs = 5000 ∧ dockerIntervalMs ≠ 3000 := by
  decide

/-- C9 (amended): every widget makes one immediate adapter call on mount
(invocation 0 at t = 0) and then repeats at its fixed interval: 2 s for the
CPU and RAM widgets, 3 s for the health, Sentry and Spotify widgets, 5 s for
the Docker containers widget, and 30 s for the Jira widget. -/
theorem c9_amended_holds :
    (∀ intervalMs : Nat, callStart intervalMs 0 = 0) ∧
    cpuIntervalMs = 2000 ∧ ramIntervalMs = 2000 ∧
    healthIntervalMs = 3000 ∧ sentryIntervalMs = 3000 ∧ spotifyIntervalMs = 3000 ∧
    dockerIntervalMs = 5000 ∧ jiraIntervalMs = 30000 := by
  refine ⟨?_, rfl, rfl, rfl, rfl, rfl, rfl, rfl⟩
  intro intervalMs
  unfold callStart
  exact Nat.mul_zero intervalMs

/-- C10: the StillLoading marker is matched case-insensitively (the message
is lower-cased before the "loading" test), so any message whose lower-casing
contains "loading" — e.g. "LOADING" — keeps the Jira and Sentry widgets in
the loading state; the NotConfigured/AuthFailure markers are matched
case-sensitively against the original message, so "jira_api_token missing"
does not match the "JIRA_" marker (classifying Unknown) while
"JIRA_API_TOKEN not set" does. -/
theorem c10_case_sensitivity :
    (∀ (e : String) (s : JiraState), hasLoadingMarker e = true →
      (updateTickets s (Outcome.failure e)).isLoading = true ∧
      jiraClassify e = ErrKind.stillLoading) ∧
    (∀ (e : String) (s : SentryState), hasLoadingMarker e = true →
      (updateIssues s (Outcome.failure e)).isLoading = true ∧
      sentryClassify e = ErrKind.stillLoading) ∧
    hasLoadingMarker "LOADING" = true ∧
    jiraClassify "jira_api_token missing" = ErrKind.unknown ∧
    sentryClassify "sentry_auth_token missing" = ErrKind.unknown ∧
    jiraClassify "JIRA_API_TOKEN not set" = ErrKind.notConfigured ∧
    sentryClassify "SENTRY_AUTH_TOKEN not set" = ErrKind.notConfigured := by
  refine ⟨?_, ?_, by decide, by decide, by decide, by decide, by decide⟩
  · intro e s h
    exact ⟨by simp [updateTickets, h], by simp [jiraClassify, h]⟩
  · intro e s h
    exact ⟨by simp [updateIssues, h], by simp [sentryClassify, h]⟩

/-- C10 (witness: the all-caps message "LOADING" keeps the Jira widget
loading and classifies StillLoading). -/
theorem c10_case_sensitivity_witness :
    (updateTickets jiraInit (Outcome.failure "LOADING")).isLoading = true ∧
    jiraClassify "LOADING" = ErrKind.stillLoading :=
  c10_case_sensitivity.1 "LOADING" jiraInit (by decide)

end Dashboard
